import Mathlib

/-!
Verification of the archiscribe caching subsystem (package `lib`, file modelled
from `src/unnamed/part_000`, plus `src/main.go`).

The Go code is shallowly embedded: pure data flow is translated to Lean
functions, external collaborators (the identifier index, the Fraktur
classifier, the line fetcher, the filesystem) become explicit oracle
parameters, and Go machine integers (`int`, `int64`) become `Nat`/`Int`
(no overflow is reachable in the quantities involved: byte counts and
small list lengths).
-/

namespace Archiscribe

/-- OCRLine mirrors the Go struct `OCRLine` (part_000, lines 58-63); the three
optional fields carry `omitempty` JSON tags in Go, modelled as `Option`. -/
structure OCRLine where
  imageURL : String
  previousImageURL : Option String
  nextImageURL : Option String
  transcription : Option String
  deriving DecidableEq, Repr

/-! ## ProgressReader (part_000, lines 81-100)

A `Read` call hands the wrapped reader a buffer `p` and receives back a byte
count `n` and an error.  Go's `io.Reader` contract gives `0 <= n <= len(p)`,
so `n` is a `Nat`; `BytesRead` is `int64`, modelled as `Int`. -/

/-- ReadError stands for the Go `error` value returned by the proxied reader
(`io.EOF` or any other error); `none` in `Option ReadError` is Go `nil`. -/
inductive ReadError where
  | eof
  | other (msg : String)
  deriving DecidableEq, Repr

/-- ReadReturn is the `(n int, err error)` pair produced by the proxied
reader for one `Read` call. -/
structure ReadReturn where
  n : Nat
  err : Option ReadError
  deriving DecidableEq, Repr

/-- progressRead embeds `ProgressReader.Read` (part_000, lines 92-100): given
the current `BytesRead`, the length of the caller's buffer `p`, and the
result `(n, err)` the proxied reader returned, it yields the updated
`BytesRead` and the values returned to the caller.  Note the `else` branch:
a read with `n = 0` is credited with the FULL buffer length `len(p)`. -/
def progressRead (bytesRead : Int) (pLen : Nat) (res : ReadReturn) : Int × ReadReturn :=
  (if 0 < res.n then bytesRead + (res.n : Int) else bytesRead + (pLen : Int), res)

/-- runReads folds a whole sequence of `Read` calls over a `ProgressReader`;
each list element is the buffer length passed in and the proxied reader's
result for that call.  It returns the final `BytesRead`. -/
def runReads : List (Nat × ReadReturn) → Int → Int
  | [], bytesRead => bytesRead
  | (pLen, res) :: rest, bytesRead => runReads rest (progressRead bytesRead pLen res).1

/-! ## CacheLines (part_000, lines 102-145)

`CacheLines` loops: it samples an identifier via `IDCache.Random(year)`,
filters it with `IsFraktur`, calls `FetchLines`, consumes the progress
stream, and on a delivered line list writes
`<cachePath>/<year>/<ident>.json` and returns that path.  The collaborators
(`Random`, `IsFraktur`, `FetchLines`) and the filesystem are external, so
one loop iteration is driven by an oracle: attempt `k` of the environment
says which identifier was sampled and how the attempt ended. -/

/-- AttemptOutcome is how one iteration of the `OuterCache` loop ends:
the sampled identifier is not Fraktur (line 110), `FetchLines` itself
returns an error (line 114), an error arrives on the progress channel
(line 128), or the line channel delivers the fetched lines (line 134). -/
inductive AttemptOutcome where
  | notFraktur
  | fetchCallError
  | fetchProgressError
  | fetchSuccess (lines : List OCRLine)
  deriving DecidableEq, Repr

/-- Attempt is the oracle record for one loop iteration: the identifier
`Random(year)` produced, the outcome of classification/fetch, and whether
the `ioutil.WriteFile` issued on success would succeed on disk. -/
structure Attempt where
  ident : String
  outcome : AttemptOutcome
  writeOk : Bool
  deriving DecidableEq, Repr

/-- FsWrite records the one `ioutil.WriteFile(filePath, lineJSON, 0644)`
call of a successful attempt: target path, the line sequence serialized
into the file, and whether the write succeeded on disk (the Go code
discards the returned error, so this flag is recorded but never read). -/
structure FsWrite where
  path : String
  lines : List OCRLine
  ok : Bool
  deriving DecidableEq, Repr

/-- pathJoin models Go `path.Join` for the already-clean, non-empty
components the cache code joins (a root, a year number, a file name). -/
def pathJoin (a b : String) : String := a ++ "/" ++ b

/-- cacheLines embeds `CacheLines(cachePath, year, printProgress)` run for at
most `fuel` iterations of the `OuterCache` loop.  `none` means the loop is
still running after `fuel` attempts; `some (p, w)` means it returned path
`p` after issuing the single file write `w`.  Progress-bar handling
(`printProgress`) only draws output and is dropped.  Failed attempts
(`continue` at lines 111, 116, 130) discard the identifier and move to the
next sample, i.e. to the shifted environment. -/
def cacheLines (cachePath : String) (year : Int) (env : Nat → Attempt) :
    Nat → Option (String × FsWrite)
  | 0 => none
  | fuel + 1 =>
    let a := env 0
    match a.outcome with
    | .fetchSuccess lines =>
      let yearPath := pathJoin cachePath (toString year)
      let filePath := pathJoin yearPath (a.ident ++ ".json")
      some (filePath, ⟨filePath, lines, a.writeOk⟩)
    | _ => cacheLines cachePath year (fun k => env (k + 1)) fuel

/-! ## cacheWatcher fill phase (part_000, lines 149-181)

For each year subdirectory of the cache root, `cacheWatcher` builds
`cacheFiles[year] = make([]string, len(dirContent))` — a slice already
holding `len(dirContent)` empty strings — then appends the path of every
non-directory `.json` entry, and finally loops
`for len(cacheFiles[year]) < 3 { append(CacheLines(...)) }`.  The steady
state watcher body after that is commented out in the source. -/

/-- DirEntry is the slice of `os.FileInfo` data the watcher consults:
the entry name and whether it is a directory. -/
structure DirEntry where
  name : String
  isDir : Bool
  deriving DecidableEq, Repr

/-- hasJsonExt is the test `path.Ext(f.Name()) == ".json"`: equivalent to the
name ending in the five characters ".json", since ".json" holds no later
dot (stated over the character list so that concrete instances compute). -/
def hasJsonExt (name : String) : Bool :=
  name.data.reverse.take 5 == ['n', 'o', 's', 'j', '.']

/-- initialCacheFiles is `cacheFiles[year]` right before the fill loop
(lines 164-170): `make([]string, len(dirContent))` pre-fills the slice with
`len(dirContent)` empty strings, and the loop then appends the joined path
of every non-directory `.json` entry. -/
def initialCacheFiles (yearPath : String) (dirContent : List DirEntry) : List String :=
  List.replicate dirContent.length "" ++
    dirContent.filterMap fun f =>
      if f.isDir || !hasJsonExt f.name then none else some (pathJoin yearPath f.name)

/-- fillLoopGo is the loop `for len(cacheFiles[year]) < 3` unrolled with
explicit fuel; call `i` of `CacheLines` returns the fresh path `fills i`. -/
def fillLoopGo (fills : Nat → String) : Nat → Nat → List String → List String
  | 0, _, files => files
  | fuel + 1, i, files =>
    if files.length < 3 then fillLoopGo fills fuel (i + 1) (files ++ [fills i]) else files

/-- fillLoop runs the `for len < 3` loop to completion: each iteration grows
the list by exactly one element, so the loop performs exactly
`3 - files.length` iterations and fuel `3` always suffices. -/
def fillLoop (fills : Nat → String) (files : List String) : List String :=
  fillLoopGo fills 3 0 files

/-- watcherYearFiles is the `cacheFiles[year]` list after the fill phase of
`cacheWatcher` for one year subdirectory `yearName` of `basePath` whose
listing is `dirContent` (lines 162-174). -/
def watcherYearFiles (basePath yearName : String) (dirContent : List DirEntry)
    (fills : Nat → String) : List String :=
  fillLoop fills (initialCacheFiles (pathJoin basePath yearName) dirContent)

/-- jsonFileCount counts the `.json` files actually present in a year
directory listing. -/
def jsonFileCount (dirContent : List DirEntry) : Nat :=
  (dirContent.filter fun f => !f.isDir && hasJsonExt f.name).length

/-- fillsRun is how many times the fill loop invoked `CacheLines` for this
year: the growth of `cacheFiles[year]` over its pre-loop state. -/
def fillsRun (basePath yearName : String) (dirContent : List DirEntry)
    (fills : Nat → String) : Nat :=
  (watcherYearFiles basePath yearName dirContent fills).length -
    (initialCacheFiles (pathJoin basePath yearName) dirContent).length

/-- finalJsonCount is the number of cached `.json` files in the year
directory once the fill phase finishes: the ones already there plus one per
`CacheLines` call (counting every call as producing a fresh file, the most
generous reading). -/
def finalJsonCount (basePath yearName : String) (dirContent : List DirEntry)
    (fills : Nat → String) : Nat :=
  jsonFileCount dirContent + fillsRun basePath yearName dirContent fills

/-! ## Identifier Index (spec §4.1)

The code of `IdentifierCache` (`Random`, `CacheIdentifiers`,
`LoadIdentifierCache`) is not under `src/`; only its call site
`IDCache.Random(year)` in `CacheLines` (part_000, line 107) is.  The index
is therefore modelled from the spec. -/

/-- IdentifierEntry mirrors the spec data model:
`{identifier: string, year: int}`, immutable once created. -/
structure IdentifierEntry where
  identifier : String
  year : Int
  deriving DecidableEq, Repr

/-- Modelled from the spec: `Build` of the Identifier Index (§4.1), whose
code (`CacheIdentifiers`) is not under src/.  It "queries the remote
catalog once, partitions results by year": given the catalog rows, the
index maps each year to exactly the entries carrying that year. -/
def buildIndex (catalog : List IdentifierEntry) : Int → List IdentifierEntry :=
  fun y => catalog.filter fun e => e.year == y

/-- Modelled from the spec: `Random(year)` of the Identifier Index (§4.1),
whose code is not under src/.  It "returns a uniformly random entry among
those indexed for year" — the random draw is an oracle `seed`, reduced
modulo the bucket size — and fails (`NoCandidatesError`, i.e. `none`) when
no entry is indexed for that year. -/
def randomEntry (index : Int → List IdentifierEntry) (year : Int) (seed : Nat) :
    Option IdentifierEntry :=
  let bucket := index year
  if bucket.isEmpty then none else bucket.get? (seed % bucket.length)

/-! ## InitCache (part_000, lines 293-320)

`InitCache` resolves the cache root from the `ARCHISCRIBE_CACHE`
environment variable (default `./cache`), makes it absolute, and stats it:
a missing path is created with `MkdirAll`, an existing non-directory is a
fatal `log.Panicf`.  The identifier-cache loading below that uses code not
under src/ and is outside the claims. -/

/-- StatResult is the outcome of `os.Stat` on the resolved cache root:
the path does not exist, or it exists as a non-directory, or as a
directory. -/
inductive StatResult where
  | notExist
  | file
  | dir
  deriving DecidableEq, Repr

/-- InitCacheResult is what the cache-root setup in `InitCache` does:
create the missing directory, abort the process via `log.Panicf`, or
accept the existing directory. -/
inductive InitCacheResult where
  | createdDir (p : String)
  | fatal (msg : String)
  | ok (p : String)
  deriving DecidableEq, Repr

/-- resolvedCacheDir is lines 295-299 of `InitCache`: look up
`ARCHISCRIBE_CACHE`, fall back to "./cache" when unset, then apply
`filepath.Abs` (an external path oracle `abs`). -/
def resolvedCacheDir (envCache : Option String) (abs : String → String) : String :=
  abs (match envCache with
    | some d => d
    | none => "./cache")

/-- initCacheRoot embeds the cache-root setup of `InitCache` (lines
295-307).  `envCache` is `os.LookupEnv("ARCHISCRIBE_CACHE")`, `stat` is
`os.Stat`.  The panic message uses \x27 for the apostrophes of the Go
format string "Cache directory its-name is not a directory!".  A stat
error other than not-exist would dereference a nil `FileInfo` in the Go
code; no claim concerns that case and `StatResult` omits it. -/
def initCacheRoot (envCache : Option String) (abs : String → String)
    (stat : String → StatResult) : InitCacheResult :=
  let cacheDir := resolvedCacheDir envCache abs
  match stat cacheDir with
  | .notExist => .createdDir cacheDir
  | .file => .fatal ("Cache directory \x27" ++ cacheDir ++ "\x27 is not a directory!")
  | .dir => .ok cacheDir

/-! ## main (src/main.go)

`main` registers the `-debug` and `-repoPath` flags, then tests
`*repoPath == ""` BEFORE calling `flag.Parse()`, so the pointer still holds
the registered default `""` whatever the command line says. -/

/-- MainEffect is a process-level side effect of `main`: the
`lib.InitCache()` call or `web.Serve(port, repoPath)`. -/
inductive MainEffect where
  | initCache
  | serve (port : Nat) (repoPath : String)
  deriving DecidableEq, Repr

/-- MainResult is how `main` ends: a Go `panic` with a message, or normal
completion after its effects. -/
inductive MainResult where
  | panicked (msg : String)
  | completed
  deriving DecidableEq, Repr

/-- FlagState holds the two registered flag variables of `main`. -/
structure FlagState where
  isDebug : Bool
  repoPath : String
  deriving DecidableEq, Repr

/-- flagParse models `flag.Parse()` over the command-line arguments for the
two registered flags, in the `-name value` / `-name=value` subset of Go
flag syntax `main` would accept; parsing stops at the first non-flag
argument.  (Unreachable in `main` as written, since the panic fires
first.) -/
def flagParse : List String → FlagState → FlagState
  | [], s => s
  | a :: rest, s =>
    if a = "-debug" || a = "--debug" || a = "-debug=true" || a = "--debug=true" then
      flagParse rest { s with isDebug := true }
    else if a = "-repoPath" || a = "--repoPath" then
      match rest with
      | v :: rest2 => flagParse rest2 { s with repoPath := v }
      | [] => s
    else if a.startsWith "-repoPath=" then
      flagParse rest { s with repoPath := a.drop 10 }
    else if a.startsWith "--repoPath=" then
      flagParse rest { s with repoPath := a.drop 11 }
    else
      s

/-- mainGo embeds `main` (src/main.go, lines 10-23): the flag variables are
initialized to their registered defaults (`false`, `""`); `*repoPath` is
examined before `flag.Parse(args)` runs, and the panic aborts before
`lib.InitCache()` or `web.Serve` can execute.  The result pairs the
process effects with the exit mode. -/
def mainGo (args : List String) : List MainEffect × MainResult :=
  let flags : FlagState := ⟨false, ""⟩
  if flags.repoPath = "" then
    ([], .panicked "repoPath must be set!")
  else
    let parsed := flagParse args flags
    if parsed.isDebug then
      ([.initCache, .serve 8083 parsed.repoPath], .completed)
    else
      ([.initCache, .serve 8080 parsed.repoPath], .completed)

/-! ## Concrete oracle environments used in counterexamples and witnesses -/

/-- sampleLine is one concrete OCR line record. -/
def sampleLine : OCRLine := ⟨"https://x.test/l1.jpg", none, none, none⟩

/-- envAllFail is an environment in which every sampled identifier fails at
the `FetchLines` call, so no attempt ever succeeds. -/
def envAllFail : Nat → Attempt := fun _ => ⟨"vol1", .fetchCallError, true⟩

/-- envRecover is an environment whose first sample is rejected by the
Fraktur classifier and whose later samples fetch successfully. -/
def envRecover : Nat → Attempt := fun k =>
  if k = 0 then ⟨"volA", .notFraktur, true⟩ else ⟨"volB", .fetchSuccess [sampleLine], true⟩

/-- envSuccess is an environment whose first sample fetches successfully and
whose file write succeeds. -/
def envSuccess : Nat → Attempt := fun _ => ⟨"vol1", .fetchSuccess [sampleLine], true⟩

/-- envWriteFail is an environment whose first sample fetches successfully
but whose `ioutil.WriteFile` call fails on disk. -/
def envWriteFail : Nat → Attempt := fun _ => ⟨"vol1", .fetchSuccess [sampleLine], false⟩

/-- freshFills is a stream of distinct fresh cache-file paths standing for
the results of successive `CacheLines` calls in the watcher fill loop. -/
def freshFills : Nat → String := fun k => pathJoin "cache/1850" ("fill" ++ toString k ++ ".json")

/-! ## Helper lemmas -/

/-- A failed attempt (anything but a delivered line list) makes the
`OuterCache` loop continue with the next sampled identifier. -/
theorem cacheLines_step_of_fail (cachePath : String) (year : Int) (env : Nat → Attempt)
    (fuel : Nat) (h : ∀ ls, (env 0).outcome ≠ .fetchSuccess ls) :
    cacheLines cachePath year env (fuel + 1) =
      cacheLines cachePath year (fun k => env (k + 1)) fuel := by
  cases h0 : (env 0).outcome with
  | fetchSuccess ls => exact absurd h0 (h ls)
  | notFraktur => simp [cacheLines, h0]
  | fetchCallError => simp [cacheLines, h0]
  | fetchProgressError => simp [cacheLines, h0]

/-- When no attempt of the environment ever delivers lines, CacheLines
returns nothing however many attempts it is allowed. -/
theorem cacheLines_none_of_noSuccess (cachePath : String) (year : Int) :
    ∀ (fuel : Nat) (env : Nat → Attempt),
      (∀ k ls, (env k).outcome ≠ .fetchSuccess ls) →
      cacheLines cachePath year env fuel = none := by
  intro fuel
  induction fuel with
  | zero => intro env _; rfl
  | succ n ih =>
    intro env h
    rw [cacheLines_step_of_fail cachePath year env n (h 0)]
    exact ih (fun k => env (k + 1)) (fun k ls => h (k + 1) ls)

/-- One ProgressReader.Read call never decreases BytesRead. -/
theorem progressRead_le (bytesRead : Int) (pLen : Nat) (res : ReadReturn) :
    bytesRead ≤ (progressRead bytesRead pLen res).1 := by
  unfold progressRead
  dsimp only
  split <;> omega

/-- Any sequence of Read calls never decreases BytesRead. -/
theorem runReads_ge (calls : List (Nat × ReadReturn)) :
    ∀ acc : Int, acc ≤ runReads calls acc := by
  induction calls with
  | nil => intro acc; exact le_refl acc
  | cons c rest ih =>
    intro acc
    exact le_trans (progressRead_le acc c.1 c.2) (ih (progressRead acc c.1 c.2).1)

/-! ## Claim theorems -/

/-- C1 (code bug, failing input): a year directory holding exactly the one
cached file a.json.  Because `make([]string, len(dirContent))` pre-fills
the slice with a placeholder empty string, `cacheFiles[year]` starts at
length 2, the `for len < 3` loop runs `CacheLines` only once, and the
directory ends up with 2 cached .json files — below the required minimum
of 3. -/
theorem cacheWatcher_understocked :
    finalJsonCount "cache" "1850" [⟨"a.json", false⟩] freshFills = 2 ∧ 2 < 3 := by
  constructor
  · decide
  · decide

/-- C2 counterexample: 1000 consecutive failed attempts, and CacheLines is
still resampling — it has returned no result and no terminal error (its
result type has no error outcome at all). -/
theorem cacheLines_no_budget_cex :
    cacheLines "cache" 1850 envAllFail 1000 = none :=
  cacheLines_none_of_noSuccess "cache" 1850 1000 envAllFail (fun _ _ h => nomatch h)

/-- C2 (amended): CacheLines has no bounded retry budget and no
TerminalFillError: as long as every sampled attempt fails (classifier
mismatch or fetch error), it keeps discarding and resampling forever and
returns nothing, for any number of attempts; it returns only via a
successful attempt. -/
theorem cacheLines_retries_indefinitely (cachePath : String) (year : Int)
    (env : Nat → Attempt) (fuel : Nat)
    (h : ∀ k ls, (env k).outcome ≠ .fetchSuccess ls) :
    cacheLines cachePath year env fuel = none :=
  cacheLines_none_of_noSuccess cachePath year fuel env h

/-- C2 witness: the amended theorem at a concrete all-failing environment
and seven attempts. -/
theorem cacheLines_retries_indefinitely_witness :
    cacheLines "cache" 1850 envAllFail 7 = none :=
  cacheLines_retries_indefinitely "cache" 1850 envAllFail 7 (fun _ _ h => nomatch h)

/-- C3 (code bug, failing input): a 3-byte stream consumed by one 3-byte
read followed by the terminal (0, EOF) read, both with an 8-byte buffer.
ProgressReader credits the terminal zero-byte read with the full 8-byte
buffer and ends with BytesRead = 11, not the stream length 3. -/
theorem progressReader_overcounts :
    runReads [(8, ⟨3, none⟩), (8, ⟨0, some .eof⟩)] 0 = 11 ∧ (11 : Int) ≠ 3 := by
  constructor
  · rfl
  · decide

/-- C4: over the spec-modelled index, Random(year) never returns a
cross-year entry: any entry it returns carries exactly the requested
year. -/
theorem random_no_crossYear (catalog : List IdentifierEntry) (year : Int) (seed : Nat)
    (e : IdentifierEntry) (h : randomEntry (buildIndex catalog) year seed = some e) :
    e.year = year := by
  unfold randomEntry buildIndex at h
  dsimp only at h
  by_cases hb : (catalog.filter fun x => x.year == year).isEmpty
  · rw [if_pos hb] at h
    exact absurd h (by simp)
  · rw [if_neg hb] at h
    have hmem : e ∈ catalog.filter fun x => x.year == year := List.get?_mem h
    have hy := (List.mem_filter.mp hmem).2
    simpa using hy

/-- C4 witness: the theorem applied to a one-entry catalog for year 1850
with seed 0. -/
theorem random_no_crossYear_witness :
    (⟨"vol1", 1850⟩ : IdentifierEntry).year = 1850 :=
  random_no_crossYear [⟨"vol1", 1850⟩] 1850 0 ⟨"vol1", 1850⟩ (by decide)

/-- C5: a Fraktur-classification mismatch and a fetch error (whether the
FetchLines call fails or an error arrives on the progress stream) are all
recoverable: the identifier is discarded, the loop continues with the next
sample, and the outcome is not surfaced as an error of the fill (the
remaining attempts alone determine the result). -/
theorem cacheLines_discard_resample (cachePath : String) (year : Int)
    (env : Nat → Attempt) (fuel : Nat)
    (h : (env 0).outcome = .notFraktur ∨ (env 0).outcome = .fetchCallError ∨
      (env 0).outcome = .fetchProgressError) :
    cacheLines cachePath year env (fuel + 1) =
      cacheLines cachePath year (fun k => env (k + 1)) fuel := by
  apply cacheLines_step_of_fail
  intro ls hls
  rcases h with h | h | h <;> rw [h] at hls <;> exact AttemptOutcome.noConfusion hls

/-- C5 witness: the theorem at an environment whose first sample is not
Fraktur. -/
theorem cacheLines_discard_resample_witness :
    cacheLines "cache" 1850 envRecover 2 =
      cacheLines "cache" 1850 (fun k => envRecover (k + 1)) 1 :=
  cacheLines_discard_resample "cache" 1850 envRecover 1 (Or.inl rfl)

/-- C6: when the awaited fetch for the sampled identifier delivers the line
list ls, CacheLines serializes ls into <cachePath>/<year>/<ident>.json and
returns exactly that path. -/
theorem cacheLines_success_path (cachePath : String) (year : Int)
    (env : Nat → Attempt) (fuel : Nat) (ls : List OCRLine)
    (h : (env 0).outcome = .fetchSuccess ls) :
    cacheLines cachePath year env (fuel + 1) =
      some (pathJoin (pathJoin cachePath (toString year)) ((env 0).ident ++ ".json"),
        ⟨pathJoin (pathJoin cachePath (toString year)) ((env 0).ident ++ ".json"), ls,
          (env 0).writeOk⟩) := by
  simp [cacheLines, h]

/-- C6 witness: the theorem at a concrete environment whose first attempt
fetches one line for identifier vol1 in year 1850. -/
theorem cacheLines_success_path_witness :
    cacheLines "cache" 1850 envSuccess 1 =
      some ("cache/1850/vol1.json", ⟨"cache/1850/vol1.json", [sampleLine], true⟩) :=
  cacheLines_success_path "cache" 1850 envSuccess 0 [sampleLine] rfl

/-- C7 counterexample: the disk write of the cache file fails
(writeOk = false), yet CacheLines still returns the file path as a
successful fill — the failed write is not treated as a failed attempt and
no error is recorded. -/
theorem cacheLines_writeFail_cex :
    cacheLines "cache" 1850 envWriteFail 1 =
      some ("cache/1850/vol1.json", ⟨"cache/1850/vol1.json", [sampleLine], false⟩) := by
  decide

/-- C7 (amended): a cache-file write failure is invisible to CacheLines —
the error returned by WriteFile is discarded unread, so the returned result
is identical whether every disk write fails or succeeds; the attempt is
still reported as a successful fill. -/
theorem cacheLines_ignores_write_failure (cachePath : String) (year : Int) :
    ∀ (fuel : Nat) (env : Nat → Attempt),
      (cacheLines cachePath year (fun k => { env k with writeOk := false }) fuel).map Prod.fst
        = (cacheLines cachePath year env fuel).map Prod.fst := by
  intro fuel
  induction fuel with
  | zero => intro env; rfl
  | succ n ih =>
    intro env
    cases h0 : (env 0).outcome with
    | fetchSuccess ls => simp [cacheLines, h0]
    | notFraktur =>
      have hfail : ∀ ls, (env 0).outcome ≠ .fetchSuccess ls := by
        intro ls hls; rw [h0] at hls; exact AttemptOutcome.noConfusion hls
      have hfail2 : ∀ ls,
          ((fun k => ({ env k with writeOk := false } : Attempt)) 0).outcome ≠
            .fetchSuccess ls := hfail
      rw [cacheLines_step_of_fail cachePath year env n hfail,
        cacheLines_step_of_fail cachePath year
          (fun k => { env k with writeOk := false }) n hfail2]
      exact ih (fun k => env (k + 1))
    | fetchCallError =>
      have hfail : ∀ ls, (env 0).outcome ≠ .fetchSuccess ls := by
        intro ls hls; rw [h0] at hls; exact AttemptOutcome.noConfusion hls
      have hfail2 : ∀ ls,
          ((fun k => ({ env k with writeOk := false } : Attempt)) 0).outcome ≠
            .fetchSuccess ls := hfail
      rw [cacheLines_step_of_fail cachePath year env n hfail,
        cacheLines_step_of_fail cachePath year
          (fun k => { env k with writeOk := false }) n hfail2]
      exact ih (fun k => env (k + 1))
    | fetchProgressError =>
      have hfail : ∀ ls, (env 0).outcome ≠ .fetchSuccess ls := by
        intro ls hls; rw [h0] at hls; exact AttemptOutcome.noConfusion hls
      have hfail2 : ∀ ls,
          ((fun k => ({ env k with writeOk := false } : Attempt)) 0).outcome ≠
            .fetchSuccess ls := hfail
      rw [cacheLines_step_of_fail cachePath year env n hfail,
        cacheLines_step_of_fail cachePath year
          (fun k => { env k with writeOk := false }) n hfail2]
      exact ih (fun k => env (k + 1))

/-- C8: the cache root is the ARCHISCRIBE_CACHE override (default ./cache
when unset) made absolute; if the resolved path exists and is not a
directory, startup fails fatally; if it does not exist, the directory is
created; an existing directory is used as is. -/
theorem initCache_root_spec (envCache : Option String) (abs : String → String)
    (stat : String → StatResult) :
    (envCache = none → resolvedCacheDir envCache abs = abs "./cache") ∧
    (∀ d, envCache = some d → resolvedCacheDir envCache abs = abs d) ∧
    (stat (resolvedCacheDir envCache abs) = .notExist →
      initCacheRoot envCache abs stat = .createdDir (resolvedCacheDir envCache abs)) ∧
    (stat (resolvedCacheDir envCache abs) = .file →
      initCacheRoot envCache abs stat =
        .fatal ("Cache directory \x27" ++ resolvedCacheDir envCache abs ++
          "\x27 is not a directory!")) ∧
    (stat (resolvedCacheDir envCache abs) = .dir →
      initCacheRoot envCache abs stat = .ok (resolvedCacheDir envCache abs)) := by
  refine ⟨?_, ?_, ?_, ?_, ?_⟩
  · intro h; rw [h]; rfl
  · intro d h; rw [h]; rfl
  · intro h; simp only [initCacheRoot]; rw [h]
  · intro h; simp only [initCacheRoot]; rw [h]
  · intro h; simp only [initCacheRoot]; rw [h]

/-- C8 witness: the theorem at concrete inputs — variable unset with a
missing path (directory gets created at ./cache), and an override pointing
at an existing non-directory (fatal). -/
theorem initCache_root_spec_witness :
    initCacheRoot none (fun s => s) (fun _ => .notExist) = .createdDir "./cache" ∧
    initCacheRoot (some "/data/cache") (fun s => s) (fun _ => .file) =
      .fatal ("Cache directory \x27" ++ "/data/cache" ++ "\x27 is not a directory!") :=
  ⟨(initCache_root_spec none (fun s => s) (fun _ => .notExist)).2.2.1 rfl,
    (initCache_root_spec (some "/data/cache") (fun s => s) (fun _ => .file)).2.2.2.1 rfl⟩

/-- C9: main examines *repoPath before flag.Parse runs, so it always sees
the registered default empty string: every invocation panics with
"repoPath must be set!" and performs no cache initialization and no
serving, whatever arguments were supplied. -/
theorem main_always_panics (args : List String) :
    mainGo args = ([], .panicked "repoPath must be set!") := rfl

/-- C10: each ProgressReader.Read call adds a non-negative amount to
BytesRead (so the field is monotonically non-decreasing over any sequence
of calls) and hands the caller exactly the byte count and error the
wrapped reader produced. -/
theorem progressRead_monotone_faithful :
    ∀ (acc : Int) (pLen : Nat) (res : ReadReturn) (calls : List (Nat × ReadReturn)),
      acc ≤ (progressRead acc pLen res).1 ∧ (progressRead acc pLen res).2 = res ∧
        acc ≤ runReads calls acc := by
  intro acc pLen res calls
  exact ⟨progressRead_le acc pLen res, rfl, runReads_ge calls acc⟩

end Archiscribe
